import Mathlib

/-!
Verification of the debug-gym task-execution runtime against its
specification.  The repository ships three Python files: the environment
test suite (`tests/gym/envs/test_env.py`), the run-log viewer
(`viewer/app.py`) and the report generator (`compute_run_performance.py`).
The environment implementation itself (`RepoEnv`, `TooledEnv`,
`EventHooks`) is not part of the shipped sources, so those components are
modelled from the specification text (each such definition says so in its
doc comment); the viewer and the report generator are embedded directly
from their Python sources.
-/

namespace DebugGym

/-- Observation value type: `{source, observation}` pair, compared by
structural equality (spec §3). -/
structure Observation where
  source : String
  observation : String
deriving DecidableEq, Repr

/-- EvalOutput value type: `{success, output}` pair produced once per
evaluation run (spec §3). -/
structure EvalOutput where
  success : Bool
  output : String
deriving DecidableEq, Repr

/-- Modelled from the spec: `Event` is a closed enumeration of lifecycle
moments ("environment-start, environment-reset, step", spec §3); the
implementation enum is not under src/. -/
inductive Event where
  | env_start
  | env_reset
  | env_step
deriving DecidableEq, Repr

/-- Argument schema entry of a tool: `{type, description}` (spec §3, §6). -/
structure ArgSpec where
  type : List String
  description : String
deriving DecidableEq, Repr

/-- Tool arguments travel as an untyped mapping from argument name to a
value; modelled as an association list of strings. -/
abbrev Args : Type := List (String × String)

/-- Modelled from the spec: a Tool has a unique name, a description, an
argument schema, and is callable against keyword arguments producing an
Observation (spec §3, §6); the tool classes are not under src/. -/
structure Tool where
  name : String
  description : String
  arguments : List (String × ArgSpec)
  run : Args → Observation

/-- ToolCall: incoming action record `{id, name, arguments}` (spec §3). -/
structure ToolCall where
  id : String
  name : String
  arguments : Args

/-- Modelled from the spec: `EventHooks` keeps one ordered subscriber list
per enumerated Event, every Event having an entry from construction
(spec §3); subscribers are identified abstractly by a numeric id.  The
implementation class is not under src/. -/
structure EventHooks where
  env_start_listeners : List Nat
  env_reset_listeners : List Nat
  env_step_listeners : List Nat
deriving DecidableEq, Repr

/-- The subscriber list attached to one event. -/
def EventHooks.event_listeners (h : EventHooks) : Event → List Nat
  | .env_start => h.env_start_listeners
  | .env_reset => h.env_reset_listeners
  | .env_step => h.env_step_listeners

/-- Modelled from the spec: `unsubscribe(event, subscriber)` removes the
subscriber from that event's list if present, and is a silent no-op
otherwise (spec §4.1); `List.erase` has exactly this semantics.  The
implementation method is not under src/. -/
def EventHooks.unsubscribe (h : EventHooks) (e : Event) (s : Nat) : EventHooks :=
  match e with
  | .env_start => { h with env_start_listeners := h.env_start_listeners.erase s }
  | .env_reset => { h with env_reset_listeners := h.env_reset_listeners.erase s }
  | .env_step => { h with env_step_listeners := h.env_step_listeners.erase s }

/-- Modelled from the spec: the Tool Registry (`TooledEnv`) owns the set of
available tools, preserving insertion order (spec §4.2); the class is not
under src/. -/
structure TooledEnv where
  tools : List Tool

/-- Presence check; never fails (spec §4.2). -/
def TooledEnv.has_tool (env : TooledEnv) (name : String) : Bool :=
  env.tools.any (fun t => t.name == name)

/-- Modelled from the spec: `get_triggered_tools(call)` resolves a
ToolCall's name against the registry; on failure it returns the soft error
pair `("Unregistered tool: <name>", None)`, on success `(None, [tool,
arguments])` (spec §4.2); the method is not under src/. -/
def TooledEnv.get_triggered_tools (env : TooledEnv) (call : ToolCall) :
    Option String × Option (Tool × Args) :=
  match env.tools.find? (fun t => t.name == call.name) with
  | none => (some ("Unregistered tool: " ++ call.name), none)
  | some t => (none, some (t, call.arguments))

/-- Outcome of one run of the Terminal collaborator under the wall-clock
deadline: the process completed with a status and captured output, the
deadline elapsed, or the process could not be started (spec §4.4, §6). -/
inductive TerminalResult where
  | completed (success : Bool) (output : String)
  | timedOut
  | startFailure (message : String)
deriving DecidableEq, Repr

/-- Modelled from the spec: `eval()` classifies the Terminal outcome into a
structured EvalOutput — completion keeps the reported status and captured
text, a deadline overrun becomes `success = False` with the fixed literal
`"Timeout expired."`, and a start failure becomes a failed evaluation with
a descriptive output; a total function, no outcome raises (spec §4.4).
The method is not under src/. -/
def eval : TerminalResult → EvalOutput
  | .completed s o => ⟨s, o⟩
  | .timedOut => ⟨false, "Timeout expired."⟩
  | .startFailure m => ⟨false, m⟩

/-- BreakpointsState: mapping from a composite (file path, line number) key
to the literal breakpoint command string (spec §3); modelled as an
association list with distinct keys. -/
abbrev BreakpointsState : Type := List ((String × Nat) × String)

/-- The (file, line) keys of a breakpoint map, in registration order. -/
def breakpointKeys (st : BreakpointsState) : List (String × Nat) :=
  st.map (fun p => p.1)

/-- One rendered breakpoint line: `line <N> in <file>` (spec §4.4). -/
def renderBreakpoint (p : String × Nat) : String :=
  "line " ++ toString p.2 ++ " in " ++ p.1

/-- File-major, line-ascending order on breakpoint keys (spec §4.4). -/
def bpLe (a b : String × Nat) : Bool :=
  decide (a.1 < b.1) || (decide (a.1 = b.1) && decide (a.2 ≤ b.2))

/-- The breakpoint keys sorted by file then ascending line number. -/
def sortedBreakpointKeys (st : BreakpointsState) : List (String × Nat) :=
  (breakpointKeys st).mergeSort bpLe

/-- Modelled from the spec: `current_breakpoints()` renders the fixed
sentinel when the breakpoint map is empty, and otherwise one line per
breakpoint as `line <N> in <file>`, grouped and ordered by file then
ascending line number (spec §4.4; sentinel text from the shipped test
suite).  The method is not under src/. -/
def current_breakpoints (st : BreakpointsState) : String :=
  if st.isEmpty then "No breakpoints are set."
  else String.intercalate "\n" ((sortedBreakpointKeys st).map renderBreakpoint)

/-- Modelled from the spec: the mutable engine state of a `RepoEnv`
instance — its registered tools, the rewrite counter, the live breakpoint
map and the most recent evaluation result (spec §3, §4.4).  The class is
not under src/. -/
structure RepoEnv where
  tools : List Tool
  rewrite_counter : Nat
  current_breakpoints_state : BreakpointsState
  last_eval : Option EvalOutput

/-- The Tool Registry view of a `RepoEnv` (spec §2: the Execution Engine
depends on the Tool Registry). -/
def RepoEnv.toTooled (env : RepoEnv) : TooledEnv := ⟨env.tools⟩

/-- EnvInfo: the snapshot returned by `step`/`reset`, rebuilt fresh on
every call (spec §3). -/
structure EnvInfo where
  step_observation : Observation
  all_observations : List Observation
  eval_observation : Observation
  dir_tree : String
  current_breakpoints : String
  action : Option ToolCall
  instructions : List (String × String)
  score : Nat
  max_score : Nat
  done : Bool
  rewrite_counter : Nat
  tools : List Tool

/-- Modelled from the spec: `reset()` restores the workspace, clears
`rewrite_counter` to 0 and `current_breakpoints_state` to empty, runs one
evaluation through the Terminal collaborator as the baseline `last_eval`,
and returns an EnvInfo snapshot with `score = 0`, `done = false` and the
single evaluation Observation as baseline observations (spec §4.4 steps
1–5).  The workspace restore and the event fan-out touch only external
collaborators and carry no engine state, so they do not appear in the
state transition.  The method is not under src/. -/
def RepoEnv.reset (env : RepoEnv) (eval_result : EvalOutput) (dir_tree : String)
    (max_score : Nat) : RepoEnv × EnvInfo :=
  let env1 : RepoEnv :=
    { env with rewrite_counter := 0, current_breakpoints_state := [] }
  let env2 : RepoEnv := { env1 with last_eval := some eval_result }
  let obs : Observation := ⟨"env", eval_result.output⟩
  (env2,
    { step_observation := obs
      all_observations := [obs]
      eval_observation := obs
      dir_tree := dir_tree
      current_breakpoints := current_breakpoints env2.current_breakpoints_state
      action := none
      instructions := []
      score := 0
      max_score := max_score
      done := false
      rewrite_counter := env2.rewrite_counter
      tools := env2.tools })

/-- Modelled from the spec: `step(action)` resolves the action through the
Tool Registry; a failed resolution still completes the step, producing a
single Observation carrying the error text with no tool executed; on
success the tool is invoked, and if it is the rewrite tool the
`rewrite_counter` is incremented unconditionally — attempted, not only
successful, rewrites count (spec §4.4 steps 1–3, 6–7).  `calc_score`
stands for the injectable scoring function of spec §9; `done` is score
reaching `max_score` (spec §4.4 step 6).  The debugger-breakpoint merge
and the event drain (steps 4–5) act on collaborators outside the modelled
fragment and leave the state components below untouched on the claims'
paths.  The method is not under src/. -/
def RepoEnv.step (env : RepoEnv) (call : ToolCall)
    (calc_score : Option EvalOutput → Nat) (dir_tree : String)
    (max_score : Nat) : RepoEnv × EnvInfo :=
  let mkInfo : RepoEnv → Observation → EnvInfo := fun e obs =>
    { step_observation := obs
      all_observations := [obs]
      eval_observation := ⟨"env", ((e.last_eval).getD ⟨false, ""⟩).output⟩
      dir_tree := dir_tree
      current_breakpoints := current_breakpoints e.current_breakpoints_state
      action := some call
      instructions := []
      score := calc_score e.last_eval
      max_score := max_score
      done := decide (calc_score e.last_eval = max_score)
      rewrite_counter := e.rewrite_counter
      tools := e.tools }
  match env.toTooled.get_triggered_tools call with
  | (some err, _) => (env, mkInfo env ⟨"env", err⟩)
  | (none, some (t, args)) =>
      let obs := t.run args
      let env1 : RepoEnv :=
        if t.name == "rewrite" then
          { env with rewrite_counter := env.rewrite_counter + 1 }
        else env
      (env1, mkInfo env1 obs)
  | (none, none) => (env, mkInfo env ⟨"env", ""⟩)

/-- Modelled from the spec: the rewrite tool as observed through its
contract — a rewrite with no target path is an agent-facing soft failure
converted into the fixed failure Observation (spec §7b, §8); the
observation texts are the ones asserted by the shipped test suite.  The
tool implementation is not under src/. -/
def rewriteToolModel : Tool :=
  { name := "rewrite"
    description := "rewrite code"
    arguments := [("path", ⟨["string"], "file path"⟩),
                  ("new_code", ⟨["string"], "replacement code"⟩)]
    run := fun args =>
      match args.lookup "path" with
      | none =>
          ⟨"rewrite",
           "File path is None. Please provide a valid file path.\nRewrite failed."⟩
      | some p =>
          ⟨"rewrite", "The file `" ++ p ++ "` has been updated successfully."⟩ }

/-! ### Log viewer (`viewer/app.py`) -/

/-- The run-log record served by the viewer: metadata plus the step log
(`viewer/app.py` loads one JSON object with `problem`, `config`, `uuid`,
`success` and `log` fields); the step records are kept abstract. -/
structure ViewerData (α : Type) where
  problem : String
  uuid : String
  success : Bool
  log : List α

/-- Outcome of one viewer HTTP request: a JSON body with status 200, or a
404 with an error body. -/
inductive HttpResponse (α : Type) where
  | ok (body : α)
  | notFound (error : String)
deriving DecidableEq, Repr

/-- The `get_step` route of `viewer/app.py` (lines 54–60): returns
`data["log"][step_id]` as JSON when `0 <= step_id < len(data["log"])`, and
otherwise a 404 response with body `{"error": "Step not found"}`. -/
def get_step {α : Type} (data : ViewerData α) (step_id : Int) : HttpResponse α :=
  if h : 0 ≤ step_id ∧ step_id < data.log.length then
    HttpResponse.ok (data.log.get ⟨step_id.toNat, by omega⟩)
  else
    HttpResponse.notFound "Step not found"

/-! ### Report generator (`compute_run_performance.py`) -/

/-- The fields of a parsed `debug_gym.jsonl` record that the report
generator reads: `data.get('success', False)` and
`data["config"]["agent_type"]` when present. -/
structure RunRecord where
  success : Bool
  agent_type : Option String
deriving DecidableEq, Repr

/-- One directory visited by `os.walk`: its path, the names of the files
it holds, and the result of reading and JSON-parsing its
`debug_gym.jsonl` (`none` models an `IOError` or `JSONDecodeError`). -/
structure DirEntry where
  root : String
  files : List String
  parse : Option RunRecord
deriving DecidableEq, Repr

/-- A run directory as `os.walk` traverses it: the run directory itself
first, then every directory strictly below it. -/
structure RunDir where
  rootEntry : DirEntry
  subEntries : List DirEntry
deriving DecidableEq, Repr

/-- Whether a directory's file list contains `debug_gym.jsonl`. -/
def hasJsonl (d : DirEntry) : Bool :=
  d.files.contains "debug_gym.jsonl"

/-- The walk order of `os.walk(run_dir)`: top-down, the run directory
before everything below it. -/
def walkEntries (r : RunDir) : List DirEntry :=
  r.rootEntry :: r.subEntries

/-- The `has_tasks` precheck of `analyze_tasks_in_run` (lines 44–57): it
walks each subdirectory of the run directory looking for a
`debug_gym.jsonl`, so it scans exactly the directories strictly below the
run directory. -/
def has_tasks (r : RunDir) : Bool :=
  r.subEntries.any hasJsonl

/-- `extract_agent_type` (lines 8–27): returns
`data["config"]["agent_type"]` when the file parses and the field is
present, and `"Unknown"` when the field is absent or reading/parsing
fails (the error is printed and swallowed). -/
def extract_agent_type (parse : Option RunRecord) : String :=
  match parse with
  | none => "Unknown"
  | some r => r.agent_type.getD "Unknown"

/-- The mutable state of the scan loop in `analyze_tasks_in_run`:
the two accumulated task lists, the agent type, and the
`agent_type_extracted` flag. -/
structure ScanState where
  successful_tasks : List String
  total_valid_tasks : List String
  agent_type : String
  agent_type_extracted : Bool
deriving DecidableEq, Repr

/-- One iteration of the walk loop of `analyze_tasks_in_run` (lines
60–89): directories without `debug_gym.jsonl` or with fewer than 3 files
are skipped; otherwise the agent type is extracted once, and the record
is parsed — on success the directory joins `total_valid_tasks` and, when
its `success` field is true, `successful_tasks`; a read/parse error is
printed and the directory is skipped. -/
def processEntry (s : ScanState) (d : DirEntry) : ScanState :=
  if hasJsonl d && decide (3 ≤ d.files.length) then
    let s1 : ScanState :=
      if s.agent_type_extracted then s
      else { s with agent_type := extract_agent_type d.parse,
                    agent_type_extracted := true }
    match d.parse with
    | none => s1
    | some rcd =>
        { s1 with
          total_valid_tasks := s1.total_valid_tasks ++ [d.root]
          successful_tasks :=
            if rcd.success then s1.successful_tasks ++ [d.root]
            else s1.successful_tasks }
  else s

/-- The walk loop folded over the visited directories in walk order. -/
def scanLoop (s : ScanState) : List DirEntry → ScanState
  | [] => s
  | d :: ds => scanLoop (processEntry s d) ds

/-- `analyze_tasks_in_run` (lines 29–91): returns
`(successful_tasks, total_valid_tasks, agent_type)`; when the `has_tasks`
precheck finds no `debug_gym.jsonl` below the run directory it returns
empty lists and `"Unknown"` without scanning. -/
def analyze_tasks_in_run (r : RunDir) : List String × List String × String :=
  if has_tasks r then
    let s := scanLoop ⟨[], [], "Unknown", false⟩ (walkEntries r)
    (s.successful_tasks, s.total_valid_tasks, s.agent_type)
  else ([], [], "Unknown")

/-- A directory is counted by the scan: `debug_gym.jsonl` present, at
least 3 files, and the record parses. -/
def counted (d : DirEntry) : Bool :=
  hasJsonl d && decide (3 ≤ d.files.length) && d.parse.isSome

/-- A directory is counted as successful: counted, and the parsed
record's `success` field is true. -/
def countedSuccess (d : DirEntry) : Bool :=
  counted d && (match d.parse with
                | some rcd => rcd.success
                | none => false)

/-! ### Helper lemmas about the report-generator scan loop -/

lemma processEntry_total (s : ScanState) (d : DirEntry) :
    (processEntry s d).total_valid_tasks =
      if counted d then s.total_valid_tasks ++ [d.root]
      else s.total_valid_tasks := by
  unfold processEntry counted
  cases hj : hasJsonl d <;>
    cases hl : decide (3 ≤ d.files.length) <;>
      cases hp : d.parse <;>
        cases hx : s.agent_type_extracted <;>
          simp [hj, hl, hp, hx]

lemma processEntry_successful (s : ScanState) (d : DirEntry) :
    (processEntry s d).successful_tasks =
      if countedSuccess d then s.successful_tasks ++ [d.root]
      else s.successful_tasks := by
  unfold processEntry countedSuccess counted
  cases hj : hasJsonl d <;>
    cases hl : decide (3 ≤ d.files.length) <;>
      cases hp : d.parse <;>
        cases hx : s.agent_type_extracted <;>
          simp [hj, hl, hp, hx]

lemma counted_of_countedSuccess {d : DirEntry} (h : countedSuccess d = true) :
    counted d = true := by
  unfold countedSuccess at h
  simp only [Bool.and_eq_true] at h
  exact h.1

lemma scanLoop_total_mem (ds : List DirEntry) (s : ScanState) (x : String) :
    x ∈ (scanLoop s ds).total_valid_tasks ↔
      x ∈ s.total_valid_tasks ∨ ∃ d ∈ ds, d.root = x ∧ counted d = true := by
  induction ds generalizing s with
  | nil => simp [scanLoop]
  | cons d ds ih =>
    rw [scanLoop, ih]
    by_cases h : counted d = true <;>
      simp only [processEntry_total, h, if_true, if_false, List.mem_append,
        List.mem_singleton, List.mem_cons] <;>
      aesop

lemma scanLoop_successful_mem (ds : List DirEntry) (s : ScanState) (x : String) :
    x ∈ (scanLoop s ds).successful_tasks ↔
      x ∈ s.successful_tasks ∨ ∃ d ∈ ds, d.root = x ∧ countedSuccess d = true := by
  induction ds generalizing s with
  | nil => simp [scanLoop]
  | cons d ds ih =>
    rw [scanLoop, ih]
    by_cases h : countedSuccess d = true <;>
      simp only [processEntry_successful, h, if_true, if_false, List.mem_append,
        List.mem_singleton, List.mem_cons] <;>
      aesop

lemma scanLoop_invariant (ds : List DirEntry) (s : ScanState)
    (hsub : s.successful_tasks ⊆ s.total_valid_tasks)
    (hlen : s.successful_tasks.length ≤ s.total_valid_tasks.length) :
    (scanLoop s ds).successful_tasks ⊆ (scanLoop s ds).total_valid_tasks ∧
      (scanLoop s ds).successful_tasks.length ≤
        (scanLoop s ds).total_valid_tasks.length := by
  induction ds generalizing s with
  | nil => exact ⟨hsub, hlen⟩
  | cons d ds ih =>
    rw [scanLoop]
    apply ih
    · rw [processEntry_total, processEntry_successful]
      by_cases hcs : countedSuccess d = true
      · rw [if_pos hcs, if_pos (counted_of_countedSuccess hcs)]
        exact List.append_subset.mpr
          ⟨hsub.trans (List.subset_append_left _ _), List.subset_append_right _ _⟩
      · rw [if_neg hcs]
        by_cases hc : counted d = true
        · rw [if_pos hc]
          exact hsub.trans (List.subset_append_left _ _)
        · rw [if_neg hc]; exact hsub
    · rw [processEntry_total, processEntry_successful]
      by_cases hcs : countedSuccess d = true
      · rw [if_pos hcs, if_pos (counted_of_countedSuccess hcs)]
        simp only [List.length_append, List.length_singleton]
        omega
      · rw [if_neg hcs]
        by_cases hc : counted d = true
        · rw [if_pos hc]
          simp only [List.length_append, List.length_singleton]
          omega
        · rw [if_neg hc]; exact hlen

lemma mem_analyze_total_iff (r : RunDir)
    (hnd : ((walkEntries r).map DirEntry.root).Nodup)
    {d : DirEntry} (hd : d ∈ walkEntries r) :
    d.root ∈ (analyze_tasks_in_run r).2.1 ↔
      (has_tasks r = true ∧ counted d = true) := by
  unfold analyze_tasks_in_run
  by_cases ht : has_tasks r = true
  · rw [if_pos ht]
    simp only [ht, true_and]
    rw [scanLoop_total_mem]
    constructor
    · rintro (hx | ⟨e, he, hr, hc⟩)
      · simp at hx
      · have : e = d := List.inj_on_of_nodup_map hnd he hd hr
        rw [this] at hc; exact hc
    · intro hc
      exact Or.inr ⟨d, hd, rfl, hc⟩
  · rw [if_neg ht]
    simp [ht]

lemma mem_analyze_successful_iff (r : RunDir)
    (hnd : ((walkEntries r).map DirEntry.root).Nodup)
    {d : DirEntry} (hd : d ∈ walkEntries r) :
    d.root ∈ (analyze_tasks_in_run r).1 ↔
      (has_tasks r = true ∧ countedSuccess d = true) := by
  unfold analyze_tasks_in_run
  by_cases ht : has_tasks r = true
  · rw [if_pos ht]
    simp only [ht, true_and]
    rw [scanLoop_successful_mem]
    constructor
    · rintro (hx | ⟨e, he, hr, hc⟩)
      · simp at hx
      · have : e = d := List.inj_on_of_nodup_map hnd he hd hr
        rw [this] at hc; exact hc
    · intro hc
      exact Or.inr ⟨d, hd, rfl, hc⟩
  · rw [if_neg ht]
    simp [ht]

/-! ### Helper lemmas about the breakpoint ordering -/

lemma bpLe_iff (a b : String × Nat) :
    bpLe a b = true ↔ (a.1 < b.1 ∨ (a.1 = b.1 ∧ a.2 ≤ b.2)) := by
  simp [bpLe]

lemma bpLe_trans :
    ∀ a b c : String × Nat, bpLe a b = true → bpLe b c = true → bpLe a c = true := by
  intro a b c hab hbc
  rw [bpLe_iff] at hab hbc ⊢
  rcases hab with h1 | ⟨h1, h2⟩ <;> rcases hbc with h3 | ⟨h3, h4⟩
  · exact Or.inl (h1.trans h3)
  · exact Or.inl (h3 ▸ h1)
  · exact Or.inl (h1 ▸ h3)
  · exact Or.inr ⟨h1.trans h3, h2.trans h4⟩

lemma bpLe_total :
    ∀ a b : String × Nat, (bpLe a b || bpLe b a) = true := by
  intro a b
  rw [Bool.or_eq_true, bpLe_iff, bpLe_iff]
  rcases lt_trichotomy a.1 b.1 with h | h | h
  · exact Or.inl (Or.inl h)
  · rcases Nat.le_total a.2 b.2 with h2 | h2
    · exact Or.inl (Or.inr ⟨h, h2⟩)
    · exact Or.inr (Or.inr ⟨h.symm, h2⟩)
  · exact Or.inr (Or.inl h)

/-! ### Claim theorems -/

/-- C1.  For every environment instance and every prior session state (any
rewrite count, any breakpoints, any file mutations), `reset()` returns an
EnvInfo with `score = 0` and `done = False`, and leaves `rewrite_counter =
0` and `current_breakpoints_state` empty. -/
theorem reset_baseline_state (env : RepoEnv) (r : EvalOutput)
    (dt : String) (ms : Nat) :
    (env.reset r dt ms).2.score = 0
    ∧ (env.reset r dt ms).2.done = false
    ∧ (env.reset r dt ms).1.rewrite_counter = 0
    ∧ (env.reset r dt ms).1.current_breakpoints_state = []
    ∧ (env.reset r dt ms).2.rewrite_counter = 0 := by
  simp [RepoEnv.reset]

/-- A concrete registered tool used to exercise the registry, mirroring
the `tool1` mock of the test suite. -/
def witnessTool1 : Tool :=
  ⟨"tool1", "instructions1", [("command 1", ⟨["string"], "command 1 description"⟩)],
    fun _ => ⟨"tool1", "tool1 used"⟩⟩

/-- A second concrete registered tool, mirroring the `tool2` mock of the
test suite. -/
def witnessTool2 : Tool :=
  ⟨"tool2", "instructions2", [("command 2", ⟨["string"], "command 2 description"⟩)],
    fun _ => ⟨"tool2", "tool2 used"⟩⟩

/-- C2.  `get_triggered_tools` on a ToolCall whose name is not registered
returns the pair `("Unregistered tool: <name>", None)` without raising; on
a registered name it returns `(None, [tool, arguments])` with the
ToolCall's argument mapping preserved exactly. -/
theorem get_triggered_tools_resolution (env : TooledEnv) (call : ToolCall) :
    ((∀ t ∈ env.tools, t.name ≠ call.name) →
      env.get_triggered_tools call =
        (some ("Unregistered tool: " ++ call.name), none))
    ∧ (∀ t : Tool, (env.tools.map Tool.name).Nodup → t ∈ env.tools →
        t.name = call.name →
        env.get_triggered_tools call = (none, some (t, call.arguments))) := by
  constructor
  · intro hnone
    have hfind : env.tools.find? (fun t => t.name == call.name) = none := by
      rw [List.find?_eq_none]
      intro t ht
      simpa using hnone t ht
    simp [TooledEnv.get_triggered_tools, hfind]
  · intro t hnd ht hname
    have hsome : (env.tools.find? (fun t => t.name == call.name)).isSome := by
      rw [List.find?_isSome]
      exact ⟨t, ht, by simp [hname]⟩
    obtain ⟨t2, ht2⟩ := Option.isSome_iff_exists.mp hsome
    have hmem2 : t2 ∈ env.tools := List.mem_of_find?_eq_some ht2
    have hp2 : t2.name = call.name := by
      have := List.find?_some ht2
      simpa using this
    have heq : t2 = t :=
      List.inj_on_of_nodup_map hnd hmem2 ht (hp2.trans hname.symm)
    rw [heq] at ht2
    simp [TooledEnv.get_triggered_tools, ht2]

/-- Witness for C2: with tools `tool1`, `tool2` registered, a call naming
`tool3` is the soft unregistered failure and a call naming `tool1` resolves
to `tool1` with its argument mapping intact. -/
theorem get_triggered_tools_resolution_witness :
    (TooledEnv.get_triggered_tools ⟨[witnessTool1, witnessTool2]⟩
        ⟨"345", "tool3", []⟩ =
      (some "Unregistered tool: tool3", none))
    ∧ (TooledEnv.get_triggered_tools ⟨[witnessTool1, witnessTool2]⟩
        ⟨"123", "tool1", [("arg1", "abc"), ("arg2", "4")]⟩ =
      (none, some (witnessTool1, [("arg1", "abc"), ("arg2", "4")]))) := by
  constructor
  · exact (get_triggered_tools_resolution ⟨[witnessTool1, witnessTool2]⟩
      ⟨"345", "tool3", []⟩).1 (by decide)
  · exact (get_triggered_tools_resolution ⟨[witnessTool1, witnessTool2]⟩
      ⟨"123", "tool1", [("arg1", "abc"), ("arg2", "4")]⟩).2 witnessTool1
      (by decide) (List.mem_cons_self _ _) rfl

/-- C3.  `eval()` classifies outcomes without raising: a run past the
deadline is exactly `EvalOutput(success=False, output="Timeout expired.")`,
and a clean exit printing `"Hello, World!"` is exactly
`EvalOutput(success=True, output="Hello, World!")`. -/
theorem eval_outcomes :
    eval TerminalResult.timedOut = ⟨false, "Timeout expired."⟩
    ∧ eval (TerminalResult.completed true "Hello, World!") =
        ⟨true, "Hello, World!"⟩
    ∧ ∀ (s : Bool) (o : String),
        eval (TerminalResult.completed s o) = ⟨s, o⟩ :=
  ⟨rfl, rfl, fun _ _ => rfl⟩

/-- C4.  For every step whose action resolves to the rewrite tool, the
rewrite counter increases by exactly one regardless of whether the rewrite
succeeds or fails, the returned EnvInfo reports the incremented value, and
`reset()` sets it back to 0. -/
theorem step_rewrite_increments_counter (env : RepoEnv) (call : ToolCall)
    (calc_score : Option EvalOutput → Nat) (dt : String) (ms : Nat)
    (t : Tool) (args : Args)
    (hres : env.toTooled.get_triggered_tools call = (none, some (t, args)))
    (hname : t.name = "rewrite") :
    (env.step call calc_score dt ms).1.rewrite_counter =
        env.rewrite_counter + 1
    ∧ (env.step call calc_score dt ms).2.rewrite_counter =
        env.rewrite_counter + 1
    ∧ ∀ (e : RepoEnv) (r : EvalOutput) (dt2 : String) (ms2 : Nat),
        (e.reset r dt2 ms2).1.rewrite_counter = 0 := by
  refine ⟨?_, ?_, fun e r dt2 ms2 => by simp [RepoEnv.reset]⟩ <;>
    simp [RepoEnv.step, hres, hname]

/-- The environment used to exercise a rewrite step: the rewrite tool is
the only registered tool and no rewrite has happened yet. -/
def rewriteEnv : RepoEnv := ⟨[rewriteToolModel], 0, [], none⟩

/-- The rewrite call of the test suite carrying no target path. -/
def rewriteCall : ToolCall := ⟨"rewrite_id", "rewrite", []⟩

/-- Witness for C4: a rewrite call with no target path — a failing
rewrite — still increments the counter from 0 to 1, both in the state and
in the returned EnvInfo, and the step observation is the fixed failure
text; `reset` afterwards clears the counter. -/
theorem step_rewrite_increments_counter_witness :
    ((rewriteEnv.step rewriteCall (fun _ => 0) "" 1).1.rewrite_counter = 0 + 1
      ∧ (rewriteEnv.step rewriteCall (fun _ => 0) "" 1).2.rewrite_counter = 0 + 1
      ∧ ∀ (e : RepoEnv) (r : EvalOutput) (dt2 : String) (ms2 : Nat),
          (e.reset r dt2 ms2).1.rewrite_counter = 0)
    ∧ (rewriteEnv.step rewriteCall (fun _ => 0) "" 1).2.step_observation =
        ⟨"rewrite",
         "File path is None. Please provide a valid file path.\nRewrite failed."⟩ :=
  ⟨step_rewrite_increments_counter rewriteEnv rewriteCall (fun _ => 0) "" 1
      rewriteToolModel [] rfl rfl,
   rfl⟩

/-- C5.  `current_breakpoints()` returns the fixed sentinel string when
the breakpoint map is empty; otherwise it returns one line per breakpoint
of the form `line <N> in <file>`, the lines being exactly the rendered
breakpoint keys ordered by file then ascending line number. -/
theorem current_breakpoints_rendering (st : BreakpointsState) :
    (st = [] → current_breakpoints st = "No breakpoints are set.")
    ∧ (st ≠ [] →
        current_breakpoints st =
          String.intercalate "\n"
            ((sortedBreakpointKeys st).map renderBreakpoint)
        ∧ (sortedBreakpointKeys st).Perm (breakpointKeys st)
        ∧ List.Pairwise (fun a b => bpLe a b = true)
            (sortedBreakpointKeys st)) := by
  constructor
  · rintro rfl
    rfl
  · intro hne
    have hempty : st.isEmpty = false := by
      cases st with
      | nil => exact absurd rfl hne
      | cons a l => rfl
    refine ⟨?_, List.mergeSort_perm _ _,
      List.sorted_mergeSort bpLe_trans bpLe_total _⟩
    simp [current_breakpoints, hempty]

/-- The populated breakpoint map of the test suite. -/
def witnessBreakpoints : BreakpointsState :=
  [(("file1.py", 10), "b file1.py:10"),
   (("file1.py", 20), "b file1.py:20"),
   (("file1.py", 30), "b file1.py:30"),
   (("file2.py", 15), "b file2.py:15")]

/-- Witness for C5: the empty map renders the sentinel, and the four-entry
map of the test suite renders the joined rendered keys, a permutation of
its keys sorted file-major line-ascending. -/
theorem current_breakpoints_rendering_witness :
    current_breakpoints [] = "No breakpoints are set."
    ∧ (current_breakpoints witnessBreakpoints =
        String.intercalate "\n"
          ((sortedBreakpointKeys witnessBreakpoints).map renderBreakpoint)
      ∧ (sortedBreakpointKeys witnessBreakpoints).Perm
          (breakpointKeys witnessBreakpoints)
      ∧ List.Pairwise (fun a b => bpLe a b = true)
          (sortedBreakpointKeys witnessBreakpoints)) :=
  ⟨(current_breakpoints_rendering []).1 rfl,
   (current_breakpoints_rendering witnessBreakpoints).2 (by decide)⟩

/-- C6.  For every event and every subscriber not currently registered for
that event, `unsubscribe(event, subscriber)` does not raise and leaves the
subscriber lists unchanged; when the subscriber is present (lists are
duplicate-free by the `subscribe` contract) it is removed, other events'
lists staying untouched. -/
theorem unsubscribe_silent_removal (h : EventHooks) (e : Event) (s : Nat) :
    (s ∉ h.event_listeners e → h.unsubscribe e s = h)
    ∧ ((h.event_listeners e).Nodup →
        s ∉ (h.unsubscribe e s).event_listeners e)
    ∧ (∀ e2 : Event, e2 ≠ e →
        (h.unsubscribe e s).event_listeners e2 = h.event_listeners e2) := by
  cases e <;>
    refine ⟨fun hm => ?_, fun hnd => ?_, fun e2 hne => ?_⟩ <;>
    simp only [EventHooks.unsubscribe, EventHooks.event_listeners] at *
  case env_start.refine_1 => rw [List.erase_of_not_mem hm]
  case env_start.refine_2 => exact List.Nodup.not_mem_erase hnd
  case env_start.refine_3 =>
    cases e2 with
    | env_start => exact absurd rfl hne
    | env_reset => rfl
    | env_step => rfl
  case env_reset.refine_1 => rw [List.erase_of_not_mem hm]
  case env_reset.refine_2 => exact List.Nodup.not_mem_erase hnd
  case env_reset.refine_3 =>
    cases e2 with
    | env_start => rfl
    | env_reset => exact absurd rfl hne
    | env_step => rfl
  case env_step.refine_1 => rw [List.erase_of_not_mem hm]
  case env_step.refine_2 => exact List.Nodup.not_mem_erase hnd
  case env_step.refine_3 =>
    cases e2 with
    | env_start => rfl
    | env_reset => rfl
    | env_step => exact absurd rfl hne

/-- Witness for C6: on the hooks with listeners `[1, 2]` for env-start and
`[3]` for env-reset, unsubscribing the absent `5` changes nothing,
unsubscribing the present `1` removes it, and the env-reset list survives
an env-start unsubscription. -/
theorem unsubscribe_silent_removal_witness :
    (EventHooks.unsubscribe ⟨[1, 2], [3], []⟩ Event.env_start 5 =
      ⟨[1, 2], [3], []⟩)
    ∧ 1 ∉ (EventHooks.unsubscribe ⟨[1, 2], [3], []⟩
        Event.env_start 1).event_listeners Event.env_start
    ∧ (EventHooks.unsubscribe ⟨[1, 2], [3], []⟩
        Event.env_start 1).event_listeners Event.env_reset = [3] :=
  ⟨(unsubscribe_silent_removal ⟨[1, 2], [3], []⟩ Event.env_start 5).1
      (by decide),
   (unsubscribe_silent_removal ⟨[1, 2], [3], []⟩ Event.env_start 1).2.1
      (by decide),
   (unsubscribe_silent_removal ⟨[1, 2], [3], []⟩ Event.env_start 1).2.2
      Event.env_reset (by decide)⟩

/-- C7.  The viewer's `get_step` endpoint returns `data["log"][step_id]`
as JSON exactly when `0 ≤ step_id < len(data["log"])`, and a 404 response
with an error body for every other index — a total function, never a
partial record. -/
theorem get_step_index_contract {α : Type} (data : ViewerData α) (i : Int) :
    (∀ x : α, get_step data i = HttpResponse.ok x ↔
        (0 ≤ i ∧ data.log.get? i.toNat = some x))
    ∧ (¬(0 ≤ i ∧ i < (data.log.length : Int)) →
        get_step data i = HttpResponse.notFound "Step not found") := by
  by_cases h : 0 ≤ i ∧ i < (data.log.length : Int)
  · have hlt : i.toNat < data.log.length := by omega
    constructor
    · intro x
      rw [show get_step data i = HttpResponse.ok (data.log.get ⟨i.toNat, hlt⟩)
          from dif_pos h]
      constructor
      · rintro hx
        injection hx with hx
        exact ⟨h.1, by rw [List.get?_eq_get hlt, hx]⟩
      · rintro ⟨h0, hsome⟩
        rw [List.get?_eq_get hlt] at hsome
        injection hsome with hsome
        rw [hsome]
    · intro hcontra
      exact absurd h hcontra
  · rw [show get_step data i = HttpResponse.notFound "Step not found"
      from dif_neg h]
    constructor
    · intro x
      constructor
      · intro hx
        exact absurd hx (by simp)
      · rintro ⟨h0, hsome⟩
        have := List.get?_eq_some.mp hsome
        obtain ⟨hlt, -⟩ := this
        exact absurd ⟨h0, by omega⟩ h
    · intro _
      rfl

/-- The two-step log served in the witness below. -/
def witnessLog : ViewerData String := ⟨"prob", "uuid", true, ["s0", "s1"]⟩

/-- Witness for C7: on a two-record log, index 1 serves the second record,
while index 5 and index -1 are 404 responses. -/
theorem get_step_index_contract_witness :
    get_step witnessLog 1 = HttpResponse.ok "s1"
    ∧ get_step witnessLog 5 = HttpResponse.notFound "Step not found"
    ∧ get_step witnessLog (-1) = HttpResponse.notFound "Step not found" :=
  ⟨((get_step_index_contract witnessLog 1).1 "s1").mpr ⟨by decide, rfl⟩,
   (get_step_index_contract witnessLog 5).2 (by decide),
   (get_step_index_contract witnessLog (-1)).2 (by decide)⟩

/-- A task directory with `debug_gym.jsonl` present and exactly 3 files
whose record does not parse. -/
def cexTask : DirEntry :=
  ⟨"run/task1", ["debug_gym.jsonl", "froglog.txt", "patch.json"], none⟩

/-- A run directory whose only task directory is `cexTask`. -/
def cexRun : RunDir := ⟨⟨"run", [], none⟩, [cexTask]⟩

/-- Counterexample to C8 as stated: `run/task1` contains `debug_gym.jsonl`
and exactly 3 files, yet the report generator counts it neither toward the
total nor toward the successful list, because its record fails to parse
(`compute_run_performance.py` lines 76–89 append only inside the `try`
block). -/
theorem analyze_three_files_not_counted_cex :
    hasJsonl cexTask = true
    ∧ cexTask.files.length = 3
    ∧ cexTask ∈ walkEntries cexRun
    ∧ has_tasks cexRun = true
    ∧ (analyze_tasks_in_run cexRun).2.1 = []
    ∧ (analyze_tasks_in_run cexRun).1 = [] := by
  decide

/-- C8 (amended).  For every task directory of a run that passes the
`has_tasks` precheck, the report generator counts the task toward the
total exactly when its directory holds at least 3 files AND its
`debug_gym.jsonl` record parses, and toward the successful list exactly
when additionally the record's `success` field is true; directories with
fewer than 3 files are skipped entirely. -/
theorem analyze_counts_iff_three_files_and_parsed (r : RunDir)
    (hts : has_tasks r = true)
    (hnd : ((walkEntries r).map DirEntry.root).Nodup)
    (d : DirEntry) (hd : d ∈ walkEntries r) :
    (d.root ∈ (analyze_tasks_in_run r).2.1 ↔
      (hasJsonl d = true ∧ 3 ≤ d.files.length ∧ d.parse.isSome = true))
    ∧ (d.root ∈ (analyze_tasks_in_run r).1 ↔
      (hasJsonl d = true ∧ 3 ≤ d.files.length ∧
        ∃ rcd : RunRecord, d.parse = some rcd ∧ rcd.success = true)) := by
  constructor
  · rw [mem_analyze_total_iff r hnd hd]
    simp only [hts, true_and]
    unfold counted
    cases hp : d.parse <;> simp [hp]
  · rw [mem_analyze_successful_iff r hnd hd]
    simp only [hts, true_and]
    unfold countedSuccess counted
    cases hp : d.parse <;> simp [hp, and_assoc]

/-- A task directory with 3 files and a successfully parsed record whose
`success` field is true. -/
def okTask : DirEntry :=
  ⟨"run2/t1", ["debug_gym.jsonl", "log.txt", "patch.json"],
    some ⟨true, some "debug_agent"⟩⟩

/-- A run directory whose only task directory is `okTask`. -/
def okRun : RunDir := ⟨⟨"run2", [], none⟩, [okTask]⟩

/-- Witness for the amended C8: on a run with one well-formed task
directory of 3 files, the task is counted toward both lists. -/
theorem analyze_counts_iff_three_files_and_parsed_witness :
    (okTask.root ∈ (analyze_tasks_in_run okRun).2.1 ↔
      (hasJsonl okTask = true ∧ 3 ≤ okTask.files.length ∧
        okTask.parse.isSome = true))
    ∧ (okTask.root ∈ (analyze_tasks_in_run okRun).1 ↔
      (hasJsonl okTask = true ∧ 3 ≤ okTask.files.length ∧
        ∃ rcd : RunRecord, okTask.parse = some rcd ∧ rcd.success = true)) :=
  analyze_counts_iff_three_files_and_parsed okRun (by decide) (by decide)
    okTask (by decide)

/-- A task directory whose `debug_gym.jsonl` cannot be read or parsed. -/
def badTask : DirEntry :=
  ⟨"run3/t1", ["debug_gym.jsonl", "log.txt", "x.json"], none⟩

/-- A well-formed task directory sitting next to `badTask`. -/
def goodTask : DirEntry :=
  ⟨"run3/t2", ["debug_gym.jsonl", "log.txt", "x.json"],
    some ⟨true, some "rewrite_agent"⟩⟩

/-- The run directory holding `badTask` and `goodTask`. -/
def mixedRun : RunDir := ⟨⟨"run3", [], none⟩, [badTask, goodTask]⟩

/-- C9.  A `debug_gym.jsonl` that cannot be read or parsed is logged and
skipped: the task is counted in neither the total nor the successful
list, `extract_agent_type` returns `"Unknown"`, and the scan — a total
function — never fails on it. -/
theorem malformed_jsonl_skipped (r : RunDir)
    (hnd : ((walkEntries r).map DirEntry.root).Nodup)
    (d : DirEntry) (hd : d ∈ walkEntries r) (hp : d.parse = none) :
    d.root ∉ (analyze_tasks_in_run r).2.1
    ∧ d.root ∉ (analyze_tasks_in_run r).1
    ∧ extract_agent_type d.parse = "Unknown" := by
  have hc : counted d = false := by
    unfold counted
    simp [hp]
  have hcs : countedSuccess d = false := by
    unfold countedSuccess
    simp [hc]
  refine ⟨?_, ?_, by rw [hp]; rfl⟩
  · rw [mem_analyze_total_iff r hnd hd]
    simp [hc]
  · rw [mem_analyze_successful_iff r hnd hd]
    simp [hcs]

/-- Witness for C9: in a run holding one malformed and one well-formed
task directory, the malformed one is in neither list and yields agent type
`"Unknown"`, while the scan continues and still counts its well-formed
sibling. -/
theorem malformed_jsonl_skipped_witness :
    (badTask.root ∉ (analyze_tasks_in_run mixedRun).2.1
      ∧ badTask.root ∉ (analyze_tasks_in_run mixedRun).1
      ∧ extract_agent_type badTask.parse = "Unknown")
    ∧ goodTask.root ∈ (analyze_tasks_in_run mixedRun).2.1 :=
  ⟨malformed_jsonl_skipped mixedRun (by decide) badTask (by decide) rfl,
   by decide⟩

/-- C10.  For every run directory, `analyze_tasks_in_run` returns lists
with `successful_tasks` a subset of `total_valid_tasks` and never longer,
so every reported success count is at most the corresponding total and
every success rate lies between 0% and 100%. -/
theorem analyze_successful_subset_total (r : RunDir) :
    (analyze_tasks_in_run r).1 ⊆ (analyze_tasks_in_run r).2.1
    ∧ (analyze_tasks_in_run r).1.length ≤
        (analyze_tasks_in_run r).2.1.length := by
  unfold analyze_tasks_in_run
  by_cases ht : has_tasks r = true
  · rw [if_pos ht]
    exact scanLoop_invariant (walkEntries r) ⟨[], [], "Unknown", false⟩
      (by simp) (by simp)
  · rw [if_neg ht]
    exact ⟨fun a ha => ha, Nat.le_refl 0⟩

end DebugGym
